import Mathlib

/-!
Verification development for the SNES PPU pixel-generation core of the
`breeze-emu` repository.

The definitions below are a shallow embedding of the Rust sources:

* `src/src/ppu/bg.rs` — background layer rendering (`bg_enabled`,
  `tilemap_entry`, `bg_settings`, `color_count_for_bg`,
  `palette_base_for_bg_tile`, `lookup_bg_color`);
* `src/src/breeze_core/ppu/rendering.rs` — common rendering code
  (`Mask`, `get_raw_pixel`, `color_math_enabled`, `render_pixel`,
  `read_chr_entry`, `read_2_bitplanes`).

Machine integers are modelled as `Nat` with explicit `% 2^w` where the
source's u8/u16 wrap-around matters.  Rust `panic!`/`unreachable!` paths
are modelled as `none` of an outer `Option` layer; `debug_assert!`s are
compiled out in release builds and are not modelled.  A handful of helper
items of the repository (the `SnesRgb` color type, CGRAM access, the
sprite-pixel lookup and the INIDISP brightness/forced-blank accessors) are
not under `src/` and are modelled from the spec; each such definition
carries a doc comment starting with `Modelled from the spec:`.
-/

/-- Final 8-bit-per-channel display color (`Rgb` in the source). -/
structure Rgb where
  r : Nat
  g : Nat
  b : Nat
deriving DecidableEq

/-- Modelled from the spec: `SnesRgb` ("Internal 5-bit-per-channel color;
expanded to Rgb24 only at the final step") is not under `src/`.  Channels
are 5-bit values. -/
structure SnesRgb where
  r : Fin 32
  g : Fin 32
  b : Fin 32
deriving DecidableEq

/-- Modelled from the spec: the `SnesRgb::new` constructor keeps each
channel to 5 bits. -/
def SnesRgb.new (r g b : Nat) : SnesRgb :=
  ⟨⟨r % 32, Nat.mod_lt _ (by omega)⟩, ⟨g % 32, Nat.mod_lt _ (by omega)⟩,
   ⟨b % 32, Nat.mod_lt _ (by omega)⟩⟩

/-- Modelled from the spec: component-wise 5-bit saturating add
(`SnesRgb::saturating_add`, not under `src/`). -/
def saturating_add (a b : SnesRgb) : SnesRgb :=
  SnesRgb.new (min (a.r.val + b.r.val) 31) (min (a.g.val + b.g.val) 31)
    (min (a.b.val + b.b.val) 31)

/-- Modelled from the spec: component-wise 5-bit saturating subtract
(clamping at 0; `SnesRgb::saturating_sub`, not under `src/`). -/
def saturating_sub (a b : SnesRgb) : SnesRgb :=
  SnesRgb.new (a.r.val - b.r.val) (a.g.val - b.g.val) (a.b.val - b.b.val)

/-- Modelled from the spec: SNES-to-display conversion expands each 5-bit
channel `c` to 8 bits via `(c<<3) | (c>>2)` (`SnesRgb::to_adjusted_rgb`,
not under `src/`). -/
def to_adjusted_rgb (c : SnesRgb) : Rgb :=
  ⟨(c.r.val <<< 3) ||| (c.r.val >>> 2),
   (c.g.val <<< 3) ||| (c.g.val >>> 2),
   (c.b.val <<< 3) ||| (c.b.val >>> 2)⟩

/-- An enum of all layers a pixel can come from (rendering.rs:29).  The
`Obj` payload records whether the sprite uses palettes 0-3 ("opaque",
excluded from color math); the field is positional here because the
source's field name is reserved in this development. -/
inductive Layer where
  | Bg1
  | Bg2
  | Bg3
  | Bg4
  | Obj (opq : Bool)
  | Backdrop
deriving DecidableEq

/-- Window combinator (rendering.rs:41). -/
inductive WindowOp where
  | And
  | Or
  | Xor
  | XNor
deriving DecidableEq

/-- Masking data per layer (rendering.rs:45). -/
structure Mask where
  w1_en : Bool
  w2_en : Bool
  w1_inv : Bool
  w2_inv : Bool
  wop : WindowOp

/-- `Mask::new` (rendering.rs:54): unpack 4 mask bits and 2 combinator
bits from the given registers at the given offsets. -/
def Mask.new (mask_reg mask_offset op_reg op_offset : Nat) : Mask :=
  { w1_en := ((mask_reg >>> mask_offset) &&& 0b1111) &&& 0b0010 ≠ 0
    w2_en := ((mask_reg >>> mask_offset) &&& 0b1111) &&& 0b1000 ≠ 0
    w1_inv := ((mask_reg >>> mask_offset) &&& 0b1111) &&& 0b0001 ≠ 0
    w2_inv := ((mask_reg >>> mask_offset) &&& 0b1111) &&& 0b0100 ≠ 0
    wop := match (op_reg >>> op_offset) &&& 0b11 with
      | 0 => WindowOp.Or
      | 1 => WindowOp.And
      | 2 => WindowOp.Xor
      | _ => WindowOp.XNor }

/-- `Mask::check` (rendering.rs:73): masking result from the two window
hits. -/
def Mask.check (m : Mask) (in_w1 in_w2 : Bool) : Bool :=
  let w1 := xor in_w1 m.w1_inv
  let w2 := xor in_w2 m.w2_inv
  match m.w1_en, m.w2_en with
  | false, false => false
  | true, false => w1
  | false, true => w2
  | true, true =>
    match m.wop with
    | WindowOp.And => w1 && w2
    | WindowOp.Or => w1 || w2
    | WindowOp.Xor => xor w1 w2
    | WindowOp.XNor => !(xor w1 w2)

/-- Unpacked tilemap entry (bg.rs:29). -/
structure TilemapEntry where
  vflip : Bool
  hflip : Bool
  /-- Priority bit (0-1) -/
  priority : Nat
  /-- Tile palette (0-7) -/
  palette : Nat
  /-- Index into the character/tile data -/
  tile_number : Nat
deriving DecidableEq

/-- Collected background settings (bg.rs:6). -/
structure BgSettings where
  mosaic : Nat
  tilemap_word_addr : Nat
  tilemap_mirror_h : Bool
  tilemap_mirror_v : Bool
  tile_size : Nat
  chr_addr : Nat
  hscroll : Nat
  vscroll : Nat
deriving DecidableEq

/-- The PPU state consumed per pixel: registers, video memories and pixel
position (fields of the `Ppu` struct that the rendering path reads).
Register fields are the stored 8-bit (scroll: 16-bit) values; `vram` is
the 64 KiB byte-addressed video memory, `cgram` the 256-entry palette
(little-endian 15-bit word per entry, per the spec's data model).

`sprite_pixel` stands for `maybe_draw_sprite_pixel(prio, subscreen)`
(sprite line cache lookup).  Modelled from the spec: the sprite layer
implementation is not under `src/`; it is kept as an abstract state
component `(priority, subscreen) → Option (color, opaque-flag)` since no
claim depends on its internals.

`forced_blank` / `brightness` are the INIDISP readings; the accessors
`forced_blank()` / `brightness()` are not under `src/` and are modelled
from the spec as direct fields. -/
structure Ppu where
  bgmode : Nat
  tm : Nat
  ts : Nat
  tmw : Nat
  tsw : Nat
  w12sel : Nat
  w34sel : Nat
  wobjsel : Nat
  wbglog : Nat
  wobjlog : Nat
  wh0 : Nat
  wh1 : Nat
  wh2 : Nat
  wh3 : Nat
  cgwsel : Nat
  cgadsub : Nat
  coldata_r : Nat
  coldata_g : Nat
  coldata_b : Nat
  setini : Nat
  bg1sc : Nat
  bg2sc : Nat
  bg3sc : Nat
  bg4sc : Nat
  bg12nba : Nat
  bg34nba : Nat
  bg1hofs : Nat
  bg1vofs : Nat
  bg2hofs : Nat
  bg2vofs : Nat
  bg3hofs : Nat
  bg3vofs : Nat
  bg4hofs : Nat
  bg4vofs : Nat
  mosaic : Nat
  brightness : Nat
  forced_blank : Bool
  x : Nat
  scanline : Nat
  vram : Nat → Nat
  cgram : Nat → Nat
  sprite_pixel : Nat → Bool → Option (SnesRgb × Bool)

/-- One byte read from the 64 KiB VRAM: u16 address, u8 value. -/
def read8 (v : Nat → Nat) (a : Nat) : Nat := v (a % 65536) % 256

/-- `u16::count_ones`: number of set bits among the low 16 bits. -/
def count_ones16 (n : Nat) : Nat :=
  (List.range 16).foldl (fun acc i => acc + ((n >>> i) &&& 1)) 0

/-- Returns the active BG mode 0-7 (rendering.rs:110): `bgmode & 0b111`. -/
def bg_mode (p : Ppu) : Nat := p.bgmode &&& 0b111

/-- Modelled from the spec: the backdrop color is CGRAM entry 0
(`cgram.get_color(0)`, rendering.rs:113; the CGRAM type is not under
`src/`).  A CGRAM word decodes as `0bbbbbgggggrrrrr`. -/
def lookup_color (p : Ppu) (idx : Nat) : SnesRgb :=
  SnesRgb.new (p.cgram (idx % 256)) (p.cgram (idx % 256) >>> 5)
    (p.cgram (idx % 256) >>> 10)

/-- Backdrop color (rendering.rs:113). -/
def backdrop_color (p : Ppu) : SnesRgb := lookup_color p 0

/-- Modelled from the spec: whether the given BG layer (1-4) is enabled in
the active screen.  The subscreen-aware `bg_enabled` used by
`get_raw_pixel` (breeze_core/ppu/bg.rs) is not under `src/`:
src/src/ppu/bg.rs:44 is an earlier revision reading only `tm`, while its
caller (breeze_core/ppu/rendering.rs:192) passes a `subscreen` flag.  Per
the spec, the active screen's layer-enable register (`tm` for the main
screen, `ts` for the subscreen) decides. -/
def bg_enabled (p : Ppu) (bg : Nat) (subscreen : Bool) : Bool :=
  (if subscreen then p.ts else p.tm) &&& (1 <<< (bg - 1)) ≠ 0

/-- Reads the tilemap entry at the given VRAM word address (bg.rs:52):
`vhopppcc cccccccc` (high, low). -/
def tilemap_entry (p : Ppu) (word_address : Nat) : TilemapEntry :=
  { vflip := read8 p.vram (word_address <<< 1 + 1) &&& 0x80 ≠ 0
    hflip := read8 p.vram (word_address <<< 1 + 1) &&& 0x40 ≠ 0
    priority := (read8 p.vram (word_address <<< 1 + 1) &&& 0x20) >>> 5
    palette := (read8 p.vram (word_address <<< 1 + 1) &&& 0x1c) >>> 2
    tile_number :=
      ((read8 p.vram (word_address <<< 1 + 1) &&& 0x03) <<< 8) |||
        read8 p.vram (word_address <<< 1) }

/-- Builds the `BgSettings` record from the per-BG register selections
(body of `bg_settings`, bg.rs:92). -/
def bg_settings_from (p : Ppu) (bg bgsc chr hofs vofs : Nat) : BgSettings :=
  { mosaic := if p.mosaic &&& (1 <<< (bg - 1)) = 0 then 1
      else ((p.mosaic &&& 0xf0) >>> 4) + 1
    tilemap_word_addr := ((bgsc &&& 0xfc) >>> 2) <<< 10
    tilemap_mirror_h := bgsc &&& 0b01 = 0
    tilemap_mirror_v := bgsc &&& 0b10 = 0
    tile_size := match bg_mode p with
      | 5 | 6 => 16
      | 7 => 8
      | _ => if p.bgmode &&& (1 <<< (bg + 3)) = 0 then 8 else 16
    chr_addr := chr <<< 12
    hscroll := hofs
    vscroll := vofs }

/-- Collects properties of a background layer (bg.rs:67).  The
`unreachable!` arms for a BG index outside 1-4 are `none`. -/
def bg_settings (p : Ppu) (bg : Nat) : Option BgSettings :=
  match bg with
  | 1 => some (bg_settings_from p 1 p.bg1sc (p.bg12nba &&& 0x0f) p.bg1hofs p.bg1vofs)
  | 2 => some (bg_settings_from p 2 p.bg2sc ((p.bg12nba &&& 0xf0) >>> 4) p.bg2hofs p.bg2vofs)
  | 3 => some (bg_settings_from p 3 p.bg3sc (p.bg34nba &&& 0x0f) p.bg3hofs p.bg3vofs)
  | 4 => some (bg_settings_from p 4 p.bg4sc ((p.bg34nba &&& 0xf0) >>> 4) p.bg4hofs p.bg4vofs)
  | _ => none

/-- The color-count table of `color_count_for_bg` (bg.rs:138) as a
function of the BG mode, so that each enumerated case reduces
definitionally. -/
def color_count_for_bg_mode (m bg : Nat) : Option Nat :=
  match m, bg with
  | 0, _ => some 4
  | 1, 1 | 1, 2 => some 16
  | 1, 3 => some 4
  | 2, _ => some 16
  | 3, 1 => some 256
  | 3, 2 => some 16
  | 4, 1 => some 256
  | 4, 2 => some 4
  | 5, 1 => some 16
  | 5, 2 => some 4
  | 6, _ => some 16
  | _, _ => none

/-- Number of colors of the given BG layer in the current BG mode
(bg.rs:138).  `none` models the `panic!` (mode 7, NYI) and the
`unreachable!` arms for BG indices the mode does not define. -/
def color_count_for_bg (p : Ppu) (bg : Nat) : Option Nat :=
  color_count_for_bg_mode (bg_mode p) bg

/-- The palette-base table of `palette_base_for_bg_tile` (bg.rs:170) as a
function of the BG mode. -/
def palette_base_for_bg_tile_mode (m bg palette_num : Nat) : Option Nat :=
  match m, bg with
  | 0, _ => some (palette_num * 4 + (bg - 1) * 32)
  | 1, _ | 5, _ =>
    (color_count_for_bg_mode m bg).map (fun cc => palette_num * (cc % 256))
  | 2, _ => some (palette_num * 16)
  | 3, 1 => some 0
  | 3, 2 => some (palette_num * 16)
  | 4, 1 => some 0
  | 4, 2 => some (palette_num * 4)
  | 6, _ => some (palette_num * 16)
  | _, _ => none

/-- Palette base index for a tile of the given BG layer (bg.rs:170).
`none` models the mode-7 `panic!` and the `unreachable!` arms.  In the
mode 1/5 arm the source casts the color count to u8 (`% 256`). -/
def palette_base_for_bg_tile (p : Ppu) (bg palette_num : Nat) : Option Nat :=
  palette_base_for_bg_tile_mode (bg_mode p) bg palette_num

/-- Reads 2 bits of the given coordinate from 2 interleaved bitplanes
(rendering.rs:413).  Bit 0 is in the low byte, bit 1 in the high byte;
x value 0 corresponds to bit 7 (left-most pixel). -/
def read_2_bitplanes (p : Ppu) (bitplanes_start x_off y_off : Nat) : Nat :=
  (((read8 p.vram (bitplanes_start + y_off * 2 + 1) >>> (7 - x_off)) &&& 1) <<< 1) |||
    ((read8 p.vram (bitplanes_start + y_off * 2) >>> (7 - x_off)) &&& 1)

/-- Reads character data for one pixel and returns the palette index
stored in the bitplanes (rendering.rs:379).  Coordinates are flipped
first when requested; each pair of bitplanes occupies 16 bytes. -/
def read_chr_entry (p : Ppu) (bitplane_count start_addr tile_size x y : Nat)
    (vflip hflip : Bool) : Nat :=
  (List.range (bitplane_count >>> 1)).foldl
    (fun acc i =>
      acc |||
        (read_2_bitplanes p (start_addr + i * 16)
            (if hflip then tile_size - x - 1 else x)
            (if vflip then tile_size - y - 1 else y) <<< (2 * i)))
    0

/-- Horizontal pixel position within the scrolled BG (u16 wrapping add of
`x` and `hscroll`, bg.rs:217). -/
def bg_scrolled_x (p : Ppu) (s : BgSettings) : Nat := (p.x + s.hscroll) % 65536

/-- Vertical pixel position within the scrolled BG (bg.rs:218). -/
def bg_scrolled_y (p : Ppu) (s : BgSettings) : Nat :=
  (p.scanline + s.vscroll) % 65536

/-- VRAM word address of the tilemap entry for the given tile coordinates
(bg.rs:225): tilemap base, 32x32 in-screen position, and the screen
fold-back controlled by the (inverted) mirror bits. -/
def tilemap_entry_word_address (s : BgSettings) (tile_x tile_y : Nat) : Nat :=
  s.tilemap_word_addr |||
    ((tile_y &&& 0x1f) <<< 5) |||
    (tile_x &&& 0x1f) |||
    (if !s.tilemap_mirror_v then
      (tile_y &&& 0x20) <<< (if !s.tilemap_mirror_h then 6 else 5)
    else 0) |||
    (if !s.tilemap_mirror_h then (tile_x &&& 0x20) <<< 5 else 0)

/-- The VRAM word address of the tilemap entry addressed for the current
pixel of a BG. -/
def bg_entry_word_addr (p : Ppu) (s : BgSettings) : Nat :=
  tilemap_entry_word_address s (bg_scrolled_x p s / s.tile_size)
    (bg_scrolled_y p s / s.tile_size)

/-- The tilemap entry addressed for the current pixel of a BG. -/
def bg_tilemap_entry (p : Ppu) (s : BgSettings) : TilemapEntry :=
  tilemap_entry p (bg_entry_word_addr p s)

/-- Byte address in VRAM of the addressed tilemap entry's low byte. -/
def bg_entry_byte_addr (p : Ppu) (s : BgSettings) : Nat :=
  (bg_entry_word_addr p s <<< 1) % 65536

/-- Byte address in VRAM of the addressed tilemap entry's high byte (the
byte carrying the vflip/hflip/priority/palette bits). -/
def bg_entry_hi_addr (p : Ppu) (s : BgSettings) : Nat :=
  (bg_entry_byte_addr p s + 1) % 65536

/-- Bitplane count for a color count (bg.rs:241):
`(color_count - 1).count_ones()`. -/
def bg_bitplane_count (color_count : Nat) : Nat := count_ones16 (color_count - 1)

/-- Start address of the addressed tile's character data (bg.rs:244):
`(chr_addr << 1) + tile_number * 8 * bitplane_count` in u16 arithmetic. -/
def bg_chr_start (s : BgSettings) (e : TilemapEntry) (bitplane_count : Nat) : Nat :=
  ((s.chr_addr <<< 1) + e.tile_number * 8 * bitplane_count) % 65536

/-- The palette index decoded from the bitplanes for the current pixel of
a BG (the `read_chr_entry` call of bg.rs:249, which passes the in-tile
offsets but no flip flags — the entry's vflip/hflip are never
forwarded). -/
def bg_palette_index (p : Ppu) (s : BgSettings) (e : TilemapEntry)
    (color_count : Nat) : Nat :=
  read_chr_entry p (bg_bitplane_count color_count)
    (bg_chr_start s e (bg_bitplane_count color_count)) s.tile_size
    (bg_scrolled_x p s % s.tile_size) (bg_scrolled_y p s % s.tile_size)
    false false

/-- Looks up the color of the given background layer (1-4) at the current
pixel, using the given priority only (bg.rs:197).  The inner `Option` is
the source's return value (`none` = transparent pixel); the outer
`Option` is `none` when the source would panic (mode-7 color count /
palette base, or an invalid BG index). -/
def lookup_bg_color (p : Ppu) (bg_num prio : Nat) (subscreen : Bool) :
    Option (Option SnesRgb) :=
  if !bg_enabled p bg_num subscreen then some none
  else
    match bg_settings p bg_num with
    | none => none
    | some s =>
      if (bg_tilemap_entry p s).priority ≠ prio then some none
      else
        match color_count_for_bg p bg_num with
        | none => none
        | some color_count =>
          match palette_base_for_bg_tile p bg_num (bg_tilemap_entry p s).palette with
          | none => none
          | some palette_base =>
            match bg_palette_index p s (bg_tilemap_entry p s) color_count with
            | 0 => some none
            | idx => some (some (lookup_color p ((palette_base + idx) % 256)))

/-- The palette index the bitplane decoding yields for the current pixel
of the given BG, independent of the requested priority (`none` when the
source would panic). -/
def bg_chr_index (p : Ppu) (bg_num : Nat) : Option Nat :=
  (bg_settings p bg_num).bind fun s =>
    (color_count_for_bg p bg_num).map fun cc =>
      bg_palette_index p s (bg_tilemap_entry p s) cc

/-- Whether the current pixel is inside window 1 (rendering.rs:151):
`wh0 <= x < wh1`. -/
def in_window_1 (p : Ppu) : Bool := p.wh0 ≤ p.x && p.x < p.wh1

/-- Whether the current pixel is inside window 2 (rendering.rs:152):
`wh2 <= x < wh3`. -/
def in_window_2 (p : Ppu) : Bool := p.wh2 ≤ p.x && p.x < p.wh3

/-- The mask of BG layer `n` (rendering.rs:143-146). -/
def bg_mask (p : Ppu) (n : Nat) : Mask :=
  match n with
  | 1 => Mask.new p.w12sel 0 p.wbglog 0
  | 2 => Mask.new p.w12sel 4 p.wbglog 2
  | 3 => Mask.new p.w34sel 0 p.wbglog 4
  | _ => Mask.new p.w34sel 4 p.wbglog 6

/-- The sprite mask (rendering.rs:147). -/
def sprite_mask (p : Ppu) : Mask := Mask.new p.wobjsel 0 p.wobjlog 0

/-- The OBJ/COLOR window mask (rendering.rs:148): `wobjsel` bits 4-7 and
`wobjlog` bits 2-3. -/
def color_mask (p : Ppu) : Mask := Mask.new p.wobjsel 4 p.wobjlog 2

/-- Whether the OBJ/COLOR window mask fires at the current pixel (the
`mask_color.check(in_w1, in_w2)` of rendering.rs). -/
def color_window_hit (p : Ppu) : Bool :=
  (color_mask p).check (in_window_1 p) (in_window_2 p)

/-- Whether a layer with window-masking enable bit `bit` (0-3 = BG1-4,
4 = OBJ) is masked out at the current pixel on the given screen
(rendering.rs:136-159): the enable bit in `tmw`/`tsw` is set AND the
layer's mask fires. -/
def layer_masked (p : Ppu) (subscreen : Bool) (bit : Nat) (m : Mask) : Bool :=
  ((if subscreen then p.tsw else p.tmw) &&& (1 <<< bit) ≠ 0) &&
    m.check (in_window_1 p) (in_window_2 p)

/-- Color clipping decision (rendering.rs:163): `cgwsel` bits 7-6 against
the OBJ/COLOR window. -/
def clip_color (p : Ppu) : Bool :=
  match (p.cgwsel >>> 6) &&& 0b11, color_window_hit p with
  | 3, _ => true
  | 1, false => true
  | 2, true => true
  | _, _ => false

/-- Replaces the pixel color with the backdrop color when color clipping
is active (the `rgb_post_clip` of rendering.rs:185/194; the source
comments note the clip-to-color-0 choice). -/
def post_clip (p : Ppu) (rgb : SnesRgb) : SnesRgb :=
  if clip_color p then backdrop_color p else rgb

/-- One `(layer, priority)` consultation step of the priority lists
(the `try_layer!` macro arguments of rendering.rs:202-259). -/
inductive LayerRef where
  | bg (n prio : Nat)
  | obj (prio : Nat)
deriving DecidableEq

/-- The `Layer` tag of a BG layer number (the `bglayer!` macro,
rendering.rs:126). -/
def bg_layer_tag (n : Nat) : Layer :=
  match n with
  | 1 => Layer.Bg1
  | 2 => Layer.Bg2
  | 3 => Layer.Bg3
  | _ => Layer.Bg4

/-- One expansion of the `try_layer!` macro (rendering.rs:181): fetch the
layer's pixel; on a non-transparent, non-masked hit return the
(post-clip) color and layer, otherwise fall through (`some none`).  The
outer `Option` propagates a BG-lookup panic. -/
def try_layer (p : Ppu) (subscreen : Bool) : LayerRef → Option (Option (SnesRgb × Layer))
  | LayerRef.obj prio =>
    some (match p.sprite_pixel prio subscreen with
      | some (rgb, opq) =>
        if layer_masked p subscreen 4 (sprite_mask p) then none
        else some (post_clip p rgb, Layer.Obj opq)
      | none => none)
  | LayerRef.bg n prio =>
    match lookup_bg_color p n prio subscreen with
    | none => none
    | some none => some none
    | some (some rgb) =>
      some (if layer_masked p subscreen (n - 1) (bg_mask p n) then none
        else some (post_clip p rgb, bg_layer_tag n))

/-- The per-mode layer priority list (the ordered `try_layer!` sequences
of rendering.rs:202-259; the spec's design notes describe this table
form as semantically identical to the source's macro expansion).  Mode 1
places BG3 priority 1 first when `bgmode & 0x08` is set, mode 7 consults
BG2 only with EXTBG (`setini & 0x40`). -/
def mode_layer_list (p : Ppu) : List LayerRef :=
  match bg_mode p with
  | 0 =>
    [LayerRef.obj 3, LayerRef.bg 1 1, LayerRef.bg 2 1, LayerRef.obj 2,
     LayerRef.bg 1 0, LayerRef.bg 2 0, LayerRef.obj 1, LayerRef.bg 3 1,
     LayerRef.bg 4 1, LayerRef.obj 0, LayerRef.bg 3 0, LayerRef.bg 4 0]
  | 1 =>
    (if p.bgmode &&& 0x08 ≠ 0 then [LayerRef.bg 3 1] else []) ++
      [LayerRef.obj 3, LayerRef.bg 1 1, LayerRef.bg 2 1, LayerRef.obj 2,
       LayerRef.bg 1 0, LayerRef.bg 2 0, LayerRef.obj 1] ++
      (if p.bgmode &&& 0x08 = 0 then [LayerRef.bg 3 1] else []) ++
      [LayerRef.obj 0, LayerRef.bg 3 0]
  | 2 | 3 | 4 | 5 =>
    [LayerRef.obj 3, LayerRef.bg 1 1, LayerRef.obj 2, LayerRef.bg 2 1,
     LayerRef.obj 1, LayerRef.bg 1 0, LayerRef.obj 0, LayerRef.bg 2 0]
  | 6 =>
    [LayerRef.obj 3, LayerRef.bg 1 1, LayerRef.obj 2, LayerRef.obj 1,
     LayerRef.bg 1 0, LayerRef.obj 0]
  | _ =>
    [LayerRef.obj 3, LayerRef.obj 2] ++
      (if p.setini &&& 0x40 ≠ 0 then [LayerRef.bg 2 1] else []) ++
      [LayerRef.obj 1, LayerRef.bg 1 0, LayerRef.obj 0] ++
      (if p.setini &&& 0x40 ≠ 0 then [LayerRef.bg 2 0] else [])

/-- First non-transparent, non-masked hit of a layer list; when no layer
hits, the backdrop color with layer tag `Backdrop` (rendering.rs:263). -/
def first_layer_hit (p : Ppu) (subscreen : Bool) :
    List LayerRef → Option (SnesRgb × Layer)
  | [] => some (backdrop_color p, Layer.Backdrop)
  | l :: rest =>
    match try_layer p subscreen l with
    | none => none
    | some (some r) => some r
    | some none => first_layer_hit p subscreen rest

/-- Renders a "raw" pixel (no color math) and returns the color and the
layer it came from (rendering.rs:121); `subscreen` selects `ts`/`tsw`
over `tm`/`tmw`.  `none` when a BG lookup would panic. -/
def get_raw_pixel (p : Ppu) (subscreen : Bool) : Option (SnesRgb × Layer) :=
  first_layer_hit p subscreen (mode_layer_list p)

/-- The `cgadsub` enable-bit index of a layer (rendering.rs:267): BG1-4 =
bits 0-3, non-opaque OBJ = bit 4, backdrop = bit 5; opaque sprites have
none (`return false`). -/
def layer_math_bit : Layer → Option Nat
  | Layer.Bg1 => some 0
  | Layer.Bg2 => some 1
  | Layer.Bg3 => some 2
  | Layer.Bg4 => some 3
  | Layer.Obj false => some 4
  | Layer.Obj true => none
  | Layer.Backdrop => some 5

/-- Whether color math applies to the main pixel's layer
(rendering.rs:266): the layer's `cgadsub` bit must be set, and the
`cgwsel` bits 5-4 rule against the OBJ/COLOR window must not veto. -/
def color_math_enabled (p : Ppu) (l : Layer) : Bool :=
  match layer_math_bit l with
  | none => false
  | some bit =>
    if p.cgadsub &&& (1 <<< bit) = 0 then false
    else
      match (p.cgwsel >>> 4) &&& 0b11, color_window_hit p with
      | 3, _ => false
      | 1, false => false
      | 2, true => false
      | _, _ => true

/-- The color-math operand (rendering.rs:325): the fixed COLDATA color
when `cgwsel & 0x02 == 0`, otherwise the subscreen pixel with the fixed
color substituted for a subscreen backdrop. -/
def math_operand (p : Ppu) : Option SnesRgb :=
  if p.cgwsel &&& 0x02 = 0 then
    some (SnesRgb.new p.coldata_r p.coldata_g p.coldata_b)
  else
    (get_raw_pixel p true).map fun sc =>
      match sc.2 with
      | Layer.Backdrop => SnesRgb.new p.coldata_r p.coldata_g p.coldata_b
      | _ => sc.1

/-- The main-screen pixel after color math (rendering.rs:323-352):
saturating add, or saturating subtract when `cgadsub & 0x80` is set. -/
def post_math_color (p : Ppu) : Option SnesRgb :=
  (get_raw_pixel p false).bind fun mc =>
    if color_math_enabled p mc.2 then
      (math_operand p).map fun op =>
        if p.cgadsub &&& 0x80 = 0 then saturating_add mc.1 op
        else saturating_sub mc.1 op
    else some mc.1

/-- Main rendering entry point (rendering.rs:297).  The source asserts
`x < SCREEN_WIDTH` (256) and `scanline < SCREEN_HEIGHT` (224), modelled
as the outer guard; forced blank short-circuits to pure black before any
lookup.  After color math each 5-bit channel is scaled by
`(brightness+1)/16` in u16 arithmetic and cast to u8, with brightness 0
giving black, then expanded to 8 bits per channel.  (The per-frame
overflow-flag reset and the per-scanline sprite pre-scan mutate state but
do not affect the returned color; the sprite cache is the `sprite_pixel`
component.) -/
def render_pixel (p : Ppu) : Option Rgb :=
  if p.x < 256 ∧ p.scanline < 224 then
    if p.forced_blank then some ⟨0, 0, 0⟩
    else
      (post_math_color p).map fun c =>
        to_adjusted_rgb
          (if p.brightness = 0 then SnesRgb.new 0 0 0
           else
             SnesRgb.new (c.r.val * (p.brightness + 1) / 16 % 256)
               (c.g.val * (p.brightness + 1) / 16 % 256)
               (c.b.val * (p.brightness + 1) / 16 % 256))
  else none

/-- A base PPU state: all registers and memories zero, no sprites on the
line, display enabled.  Concrete states below are record updates of it. -/
def ppu0 : Ppu :=
  { bgmode := 0, tm := 0, ts := 0, tmw := 0, tsw := 0, w12sel := 0,
    w34sel := 0, wobjsel := 0, wbglog := 0, wobjlog := 0, wh0 := 0,
    wh1 := 0, wh2 := 0, wh3 := 0, cgwsel := 0, cgadsub := 0,
    coldata_r := 0, coldata_g := 0, coldata_b := 0, setini := 0,
    bg1sc := 0, bg2sc := 0, bg3sc := 0, bg4sc := 0, bg12nba := 0,
    bg34nba := 0, bg1hofs := 0, bg1vofs := 0, bg2hofs := 0, bg2vofs := 0,
    bg3hofs := 0, bg3vofs := 0, bg4hofs := 0, bg4vofs := 0, mosaic := 0,
    brightness := 0, forced_blank := false, x := 0, scanline := 0,
    vram := fun _ => 0, cgram := fun _ => 0,
    sprite_pixel := fun _ _ => none }

/-- Concrete state for the C1 counterexample: color-math window rule 01
(`cgwsel = 0x10`), a plain non-inverted W1 color window covering
`x ∈ [0, 10)` (`wobjsel = 0x20`), pixel at `x = 5` (inside the window),
BG1 color-math bit set. -/
def ppuC1 : Ppu :=
  { ppu0 with cgwsel := 0x10, wobjsel := 0x20, wh1 := 10, x := 5, cgadsub := 1 }

/-- Concrete state with BG1 color math enabled and rule 00 (always). -/
def ppuC1w : Ppu := { ppu0 with cgadsub := 1 }

/-- Concrete mode-1 state with the BG3-priority flag set (`bgmode = 9`),
BG3 enabled on the main screen, and VRAM holding a priority-1 tilemap
entry at word 0 and a non-transparent BG3 character pixel at the BG3
character base. -/
def ppuC3w : Ppu :=
  { ppu0 with
    bgmode := 9
    tm := 4
    bg34nba := 1
    vram := fun a => if a = 1 then 0x20 else if a = 8192 then 0x80 else 0 }

/-- Concrete state for the C5 witness. -/
def ppuC5w : Ppu := { ppu0 with vram := fun a => a % 256 }

/-- Concrete state with BG1 enabled on the main screen (C6 witness). -/
def ppuC6w : Ppu := { ppu0 with tm := 1 }

/-- Concrete state in BG mode 7 (C9 counterexample). -/
def ppuC9 : Ppu := { ppu0 with bgmode := 7 }

/-- Concrete state for the C10 counterexample: BG1 enabled, all-zero
VRAM.  With all bases zero the addressed tilemap entry's high byte (VRAM
byte 1) is also the high character byte of the addressed pixel. -/
def ppuC10a : Ppu := { ppu0 with tm := 1 }

/-- Same as `ppuC10a` except VRAM byte 1 has bit 7 (the vflip bit of the
addressed tilemap entry) set. -/
def ppuC10b : Ppu :=
  { ppu0 with tm := 1, vram := fun a => if a = 1 then 128 else 0 }

/-- Concrete state for the C10 witness: BG1 enabled with its character
base moved to VRAM byte 8192, away from the tilemap at byte 0. -/
def ppuC10w : Ppu := { ppu0 with tm := 1, bg12nba := 1 }

/-- VRAM contents differing from `ppuC10w`'s (all zero) only in bit 6 of
byte 1, the addressed tilemap entry's hflip bit. -/
def vC10 : Nat → Nat := fun a => if a = 1 then 64 else 0

/-- First non-transparent, non-masked hit is pointwise: two states whose
`try_layer` and backdrop agree give the same result on any layer list. -/
theorem first_layer_hit_congr (p q : Ppu) (sp sq : Bool)
    (ht : ∀ lr, try_layer p sp lr = try_layer q sq lr)
    (hb : backdrop_color p = backdrop_color q) :
    ∀ l : List LayerRef, first_layer_hit p sp l = first_layer_hit q sq l := by
  intro l
  induction l with
  | nil => simp [first_layer_hit, hb]
  | cons a rest ih => simp only [first_layer_hit, ht a, ih]

/-- C4: For every register state, VRAM, CGRAM and OAM contents, and every
in-range pixel (x < 256, scanline < 224): if forced blank is set,
`render_pixel` returns RGB (0,0,0); no layer lookup, color math, or
brightness scaling affects the result. -/
theorem render_pixel_forced_blank (p : Ppu) (hx : p.x < 256)
    (hy : p.scanline < 224) (hf : p.forced_blank = true) :
    render_pixel p = some ⟨0, 0, 0⟩ := by
  simp [render_pixel, hx, hy, hf]

theorem render_pixel_forced_blank_witness :
    render_pixel { ppu0 with forced_blank := true } = some ⟨0, 0, 0⟩ :=
  render_pixel_forced_blank _ (by decide) (by decide) rfl

/-- C2: For every background 1-4 and every priority, a subscreen lookup
returns `None` whenever the BG's enable bit is clear in the subscreen
layer-enable register `ts`. -/
theorem lookup_bg_color_subscreen_disabled (p : Ppu) (bg prio : Nat)
    (h1 : 1 ≤ bg) (h4 : bg ≤ 4) (h : p.ts &&& (1 <<< (bg - 1)) = 0) :
    lookup_bg_color p bg prio true = some none := by
  simp [lookup_bg_color, bg_enabled, h]

theorem lookup_bg_color_subscreen_disabled_witness :
    lookup_bg_color ppu0 1 0 true = some none :=
  lookup_bg_color_subscreen_disabled ppu0 1 0 (by decide) (by decide) (by decide)

/-- C7: For a background whose horizontal mirror bit folds back (bg{n}sc
bit 0 clear, `tilemap_mirror_h` set), the tilemap word address for
`tile_x = 32` equals the one for `tile_x = 0` with all other inputs
equal, so both coordinates read the same tilemap entry. -/
theorem tilemap_mirror_h_foldback (p : Ppu) (bg : Nat) (s : BgSettings)
    (tile_y : Nat) (hs : bg_settings p bg = some s)
    (hm : s.tilemap_mirror_h = true) :
    tilemap_entry_word_address s 32 tile_y =
      tilemap_entry_word_address s 0 tile_y ∧
    tilemap_entry p (tilemap_entry_word_address s 32 tile_y) =
      tilemap_entry p (tilemap_entry_word_address s 0 tile_y) := by
  have ha : tilemap_entry_word_address s 32 tile_y =
      tilemap_entry_word_address s 0 tile_y := by
    simp [tilemap_entry_word_address, hm, show (32 : Nat) &&& 31 = 0 by decide,
      show (0 : Nat) &&& 31 = 0 by decide]
  exact ⟨ha, by rw [ha]⟩

theorem tilemap_mirror_h_foldback_witness :
    tilemap_entry_word_address (bg_settings_from ppu0 1 0 0 0 0) 32 0 =
      tilemap_entry_word_address (bg_settings_from ppu0 1 0 0 0 0) 0 0 :=
  (tilemap_mirror_h_foldback ppu0 1 _ 0 rfl (by decide)).1

/-- C9 counterexample: in BG mode 7 the color-count lookup panics
(`none`) instead of continuing with a default of 4 colors. -/
theorem color_count_for_bg_mode7_counterexample :
    color_count_for_bg ppuC9 1 = none ∧ color_count_for_bg ppuC9 1 ≠ some 4 := by
  decide

/-- C9 (amended): for a BG-mode/layer combination not covered by the
color-count table the implementation terminates (`panic!` for mode 7,
`unreachable!` for a BG index the mode does not define) rather than
logging and continuing with 4 colors; for every covered combination it
returns a count. -/
theorem color_count_for_bg_uncovered (p : Ppu) (bg : Nat) :
    color_count_for_bg p bg = none ↔
      (bg_mode p = 7 ∨ (bg_mode p = 1 ∧ ¬(bg = 1 ∨ bg = 2 ∨ bg = 3)) ∨
        ((bg_mode p = 3 ∨ bg_mode p = 4 ∨ bg_mode p = 5) ∧ ¬(bg = 1 ∨ bg = 2))) := by
  obtain ⟨m, hm⟩ : ∃ m, bg_mode p = m := ⟨_, rfl⟩
  have h7 : m ≤ 7 := by rw [← hm]; exact Nat.and_le_right
  simp only [color_count_for_bg, hm]
  interval_cases m <;> rcases bg with _ | _ | _ | _ | bg <;>
    first
    | decide
    | (refine iff_of_true rfl ?_; omega)
    | (refine iff_of_false (fun h => Option.noConfusion h) ?_; omega)

/-- C1 counterexample: with color-math window rule 01 (`cgwsel[5:4]`), a
pixel inside the OBJ/COLOR window, and the layer's `cgadsub` bit set,
color math is applied — the spec's "01 = only outside" is the wrong way
around (the code disables math outside the window for rule 01). -/
theorem color_math_enabled_rule01_counterexample :
    (ppuC1.cgwsel >>> 4) &&& 0b11 = 1 ∧ color_window_hit ppuC1 = true ∧
    ppuC1.cgadsub &&& (1 <<< 0) ≠ 0 ∧
    color_math_enabled ppuC1 Layer.Bg1 = true := by
  decide

/-- C1 (amended): for every pixel whose main-screen layer has its
`cgadsub` enable bit set, the `cgwsel[5:4]` color-window rule gives:
rule 11 never applies math, rule 01 applies it only when the pixel is
inside the OBJ/COLOR window, rule 10 only when it is outside, and rule
00 always (`color_math_enabled` returns the corresponding boolean). -/
theorem color_math_enabled_window_rule (p : Ppu) (l : Layer) (bit : Nat)
    (hb : layer_math_bit l = some bit)
    (hen : p.cgadsub &&& (1 <<< bit) ≠ 0) :
    ((p.cgwsel >>> 4) &&& 0b11 = 3 → color_math_enabled p l = false) ∧
    ((p.cgwsel >>> 4) &&& 0b11 = 1 →
      color_math_enabled p l = color_window_hit p) ∧
    ((p.cgwsel >>> 4) &&& 0b11 = 2 →
      color_math_enabled p l = !color_window_hit p) ∧
    ((p.cgwsel >>> 4) &&& 0b11 = 0 → color_math_enabled p l = true) := by
  unfold color_math_enabled
  rw [hb]
  simp only [hen, if_neg, if_false]
  refine ⟨fun h => ?_, fun h => ?_, fun h => ?_, fun h => ?_⟩ <;>
    rw [h] <;> cases hw : color_window_hit p <;> simp [hw]

theorem color_math_enabled_window_rule_witness :
    color_math_enabled ppuC1w Layer.Bg1 = true :=
  (color_math_enabled_window_rule ppuC1w Layer.Bg1 0 rfl (by decide)).2.2.2 rfl

/-- Whenever the color-count table yields a count, the palette-base table
yields a base (used to rule out a palette-base panic after a successful
color-count lookup). -/
theorem palette_base_isSome (p : Ppu) (bg pal cc : Nat)
    (h : color_count_for_bg p bg = some cc) :
    ∃ b, palette_base_for_bg_tile p bg pal = some b := by
  obtain ⟨m, hm⟩ : ∃ m, bg_mode p = m := ⟨_, rfl⟩
  have h7 : m ≤ 7 := by rw [← hm]; exact Nat.and_le_right
  simp only [color_count_for_bg, palette_base_for_bg_tile, hm] at h ⊢
  interval_cases m <;> rcases bg with _ | _ | _ | _ | bg <;>
    first
    | exact ⟨_, rfl⟩
    | exact Option.noConfusion h

/-- C6: For every background, priority, and state: if the bitplane
decoding of the addressed tile pixel yields palette index 0,
`lookup_bg_color` returns `None` (the transparent pixel contributes no
color). -/
theorem lookup_bg_color_transparent (p : Ppu) (bg prio : Nat) (sub : Bool)
    (h : bg_chr_index p bg = some 0) :
    lookup_bg_color p bg prio sub = some none := by
  unfold bg_chr_index at h
  cases hs : bg_settings p bg with
  | none => rw [hs] at h; exact Option.noConfusion h
  | some s =>
    rw [hs] at h
    cases hcc : color_count_for_bg p bg with
    | none => rw [hcc] at h; exact Option.noConfusion h
    | some cc =>
      rw [hcc] at h
      have hidx : bg_palette_index p s (bg_tilemap_entry p s) cc = 0 := by
        simpa using h
      unfold lookup_bg_color
      cases he : bg_enabled p bg sub with
      | false => simp [he]
      | true =>
        obtain ⟨b, hb⟩ := palette_base_isSome p bg (bg_tilemap_entry p s).palette cc hcc
        simp only [he, hs, hcc, hb, hidx, Bool.not_true, Bool.false_eq_true,
          if_false, ite_self]

theorem lookup_bg_color_transparent_witness :
    lookup_bg_color ppuC6w 1 0 false = some none :=
  lookup_bg_color_transparent ppuC6w 1 0 false (by decide)

/-- C3: In BG mode 1, when `bgmode` bit 3 is set, BG3 priority 1 is
consulted first — before every sprite priority and before BG1/BG2 at any
priority — and a non-transparent, non-masked BG3.1 pixel wins over all
of them; when bit 3 is clear, BG3 priority 1 is consulted after sprites
of priority 1 and before sprites of priority 0, and BG3 priority 0 is
consulted last. -/
theorem get_raw_pixel_mode1_bg3 (p : Ppu) (sub : Bool) (h : bg_mode p = 1) :
    (p.bgmode &&& 0x08 ≠ 0 →
      mode_layer_list p =
        [LayerRef.bg 3 1, LayerRef.obj 3, LayerRef.bg 1 1, LayerRef.bg 2 1,
         LayerRef.obj 2, LayerRef.bg 1 0, LayerRef.bg 2 0, LayerRef.obj 1,
         LayerRef.obj 0, LayerRef.bg 3 0] ∧
      ∀ r : SnesRgb × Layer, try_layer p sub (LayerRef.bg 3 1) = some (some r) →
        get_raw_pixel p sub = some r) ∧
    (p.bgmode &&& 0x08 = 0 →
      mode_layer_list p =
        [LayerRef.obj 3, LayerRef.bg 1 1, LayerRef.bg 2 1, LayerRef.obj 2,
         LayerRef.bg 1 0, LayerRef.bg 2 0, LayerRef.obj 1, LayerRef.bg 3 1,
         LayerRef.obj 0, LayerRef.bg 3 0]) := by
  constructor
  · intro hbit
    have hl : mode_layer_list p =
        [LayerRef.bg 3 1, LayerRef.obj 3, LayerRef.bg 1 1, LayerRef.bg 2 1,
         LayerRef.obj 2, LayerRef.bg 1 0, LayerRef.bg 2 0, LayerRef.obj 1,
         LayerRef.obj 0, LayerRef.bg 3 0] := by
      unfold mode_layer_list
      rw [h]
      simp [hbit]
    refine ⟨hl, fun r hr => ?_⟩
    unfold get_raw_pixel
    rw [hl]
    unfold first_layer_hit
    rw [hr]
  · intro hbit
    unfold mode_layer_list
    rw [h]
    simp [hbit]

theorem get_raw_pixel_mode1_bg3_witness :
    get_raw_pixel ppuC3w false = some (SnesRgb.new 0 0 0, Layer.Bg3) :=
  ((get_raw_pixel_mode1_bg3 ppuC3w false (by decide)).1 (by decide)).2 _ (by decide)

/-- A 2-bit bitplane-pair value is below 4. -/
theorem read_2_bitplanes_lt (p : Ppu) (s a b : Nat) :
    read_2_bitplanes p s a b < 4 := by
  unfold read_2_bitplanes
  rw [show (4 : Nat) = 2 ^ 2 from rfl]
  apply Nat.or_lt_two_pow
  · rw [Nat.shiftLeft_eq]
    have h := Nat.and_le_right
      (n := read8 p.vram (s + b * 2 + 1) >>> (7 - a)) (m := 1)
    calc (read8 p.vram (s + b * 2 + 1) >>> (7 - a) &&& 1) * 2 ^ 1
        ≤ 1 * 2 ^ 1 := Nat.mul_le_mul_right _ h
      _ < 2 ^ 2 := by norm_num
  · have h := Nat.and_le_right
      (n := read8 p.vram (s + b * 2) >>> (7 - a)) (m := 1)
    omega

/-- OR-accumulating `n` 2-bit values, each shifted to its own bit pair,
stays below `4 ^ n`. -/
theorem foldl_or_shift_lt (f : Nat → Nat) (hf : ∀ i, f i < 4) :
    ∀ n : Nat,
      (List.range n).foldl (fun acc i => acc ||| (f i <<< (2 * i))) 0 < 4 ^ n := by
  intro n
  induction n with
  | zero => simp
  | succ k ih =>
    rw [List.range_succ, List.foldl_append, List.foldl_cons, List.foldl_nil]
    rw [show (4 : Nat) ^ (k + 1) = 2 ^ (2 * (k + 1)) from by
      rw [show (4 : Nat) = 2 ^ 2 from rfl, ← pow_mul]]
    apply Nat.or_lt_two_pow
    · calc (List.range k).foldl (fun acc i => acc ||| (f i <<< (2 * i))) 0
          < 4 ^ k := ih
        _ ≤ 2 ^ (2 * (k + 1)) := by
          rw [show (4 : Nat) = 2 ^ 2 from rfl, ← pow_mul]
          exact Nat.pow_le_pow_right (by omega) (by omega)
    · rw [Nat.shiftLeft_eq]
      calc f k * 2 ^ (2 * k) < 4 * 2 ^ (2 * k) :=
            Nat.mul_lt_mul_of_lt_of_le (hf k) (Nat.le_refl _)
              (Nat.pos_pow_of_pos _ (by omega))
        _ = 2 ^ (2 * (k + 1)) := by
          rw [show (4 : Nat) = 2 ^ 2 from rfl, ← pow_add]
          ring_nf

/-- C5: For every even bitplane count in {2,4,8}, tile size 8, tile
offsets x,y < 8, any flip flags and any VRAM: `read_chr_entry` returns a
palette index below `2^bitplane_count`, formed by extracting, for each
bitplane pair `i`, bit `7-x` of the low byte at
`start_addr + i*16 + y*2` and of the adjacent high byte (taking the
flipped coordinates when a flip flag is set — bit 7 is the leftmost
pixel) and OR-ing the 2-bit value shifted left by `2*i`. -/
theorem read_chr_entry_contract (p : Ppu) (bpc start x y : Nat) (vf hf : Bool)
    (hb : bpc = 2 ∨ bpc = 4 ∨ bpc = 8) (hx : x < 8) (hy : y < 8) :
    read_chr_entry p bpc start 8 x y vf hf < 2 ^ bpc ∧
    read_chr_entry p bpc start 8 x y vf hf =
      (List.range (bpc / 2)).foldl
        (fun acc i =>
          acc |||
            (((((read8 p.vram (start + i * 16 + (if vf then 7 - y else y) * 2 + 1) >>>
                    (7 - (if hf then 7 - x else x))) &&& 1) <<< 1) |||
              ((read8 p.vram (start + i * 16 + (if vf then 7 - y else y) * 2) >>>
                  (7 - (if hf then 7 - x else x))) &&& 1)) <<< (2 * i)))
        0 := by
  constructor
  · have hbound := foldl_or_shift_lt
      (fun i => read_2_bitplanes p (start + i * 16)
        (if hf then 8 - x - 1 else x) (if vf then 8 - y - 1 else y))
      (fun i => read_2_bitplanes_lt p _ _ _) (bpc >>> 1)
    unfold read_chr_entry
    rcases hb with rfl | rfl | rfl <;> simpa using hbound
  · have hx8 : (8 : Nat) - x - 1 = 7 - x := by omega
    have hy8 : (8 : Nat) - y - 1 = 7 - y := by omega
    unfold read_chr_entry read_2_bitplanes
    rw [show bpc >>> 1 = bpc / 2 from by simp [Nat.shiftRight_eq_div_pow], hx8, hy8]

theorem read_chr_entry_contract_witness :
    read_chr_entry ppuC5w 4 32 8 1 2 false false < 2 ^ 4 :=
  (read_chr_entry_contract ppuC5w 4 32 1 2 false false (Or.inr (Or.inl rfl))
    (by decide) (by decide)).1


/-- The raw pixel is independent of the brightness register. -/
theorem get_raw_pixel_set_brightness (p : Ppu) (b : Nat) (s : Bool) :
    get_raw_pixel { p with brightness := b } s = get_raw_pixel p s := by
  unfold get_raw_pixel
  exact first_layer_hit_congr { p with brightness := b } p s s
    (fun lr => rfl) rfl (mode_layer_list { p with brightness := b })

/-- The color-math operand is independent of the brightness register. -/
theorem math_operand_set_brightness (p : Ppu) (b : Nat) :
    math_operand { p with brightness := b } = math_operand p := by
  unfold math_operand
  rw [get_raw_pixel_set_brightness]

/-- The post-color-math pixel is independent of the brightness register. -/
theorem post_math_color_set_brightness (p : Ppu) (b : Nat) :
    post_math_color { p with brightness := b } = post_math_color p := by
  unfold post_math_color
  rw [get_raw_pixel_set_brightness, math_operand_set_brightness,
    show ({ p with brightness := b } : Ppu).cgadsub = p.cgadsub from rfl]
  apply congrArg
  funext mc
  rw [show color_math_enabled { p with brightness := b } mc.2 =
    color_math_enabled p mc.2 from rfl]

/-- `render_pixel` with the brightness register replaced, in a normal
form whose other ingredients are taken at the original state. -/
theorem render_pixel_set_brightness (p : Ppu) (b : Nat) :
    render_pixel { p with brightness := b } =
      (if p.x < 256 ∧ p.scanline < 224 then
        if p.forced_blank then some ⟨0, 0, 0⟩
        else
          (post_math_color p).map fun c =>
            to_adjusted_rgb
              (if b = 0 then SnesRgb.new 0 0 0
               else
                 SnesRgb.new (c.r.val * (b + 1) / 16 % 256)
                   (c.g.val * (b + 1) / 16 % 256) (c.b.val * (b + 1) / 16 % 256))
      else none) := by
  unfold render_pixel
  rw [post_math_color_set_brightness,
    show ({ p with brightness := b } : Ppu).x = p.x from rfl,
    show ({ p with brightness := b } : Ppu).scanline = p.scanline from rfl,
    show ({ p with brightness := b } : Ppu).forced_blank = p.forced_blank from rfl,
    show ({ p with brightness := b } : Ppu).brightness = b from rfl]

/-- The 5-to-8-bit expansion `(c<<3)|(c>>2)` is monotone on 5-bit
values. -/
theorem adjusted_channel_mono :
    ∀ a b : Fin 32, a.val ≤ b.val →
      (a.val <<< 3) ||| (a.val >>> 2) ≤ (b.val <<< 3) ||| (b.val >>> 2) := by
  decide

/-- For brightness at most 15 the scaled 5-bit channel is below 32, so
the u8 cast and the 5-bit constructor change nothing. -/
theorem scale5_eq (v : Fin 32) (b : Nat) (hb : b ≤ 15) :
    v.val * (b + 1) / 16 % 256 % 32 = v.val * (b + 1) / 16 := by
  have h1 : v.val * (b + 1) ≤ 31 * 16 :=
    Nat.mul_le_mul (Nat.lt_succ_iff.mp v.isLt) (by omega)
  omega

/-- C8: With all registers, memories and the pixel position fixed except
brightness, each 8-bit output channel of `render_pixel` is monotonically
non-decreasing as brightness increases from 0 to 15 (each 5-bit channel
is scaled by `(brightness+1)/16` in integer arithmetic), and brightness 0
yields black. -/
theorem render_pixel_brightness_monotone (p : Ppu) (b1 b2 : Nat) (c1 : Rgb)
    (h12 : b1 ≤ b2) (h15 : b2 ≤ 15)
    (h1 : render_pixel { p with brightness := b1 } = some c1) :
    ∃ c2 : Rgb, render_pixel { p with brightness := b2 } = some c2 ∧
      c1.r ≤ c2.r ∧ c1.g ≤ c2.g ∧ c1.b ≤ c2.b ∧ (b1 = 0 → c1 = ⟨0, 0, 0⟩) := by
  rw [render_pixel_set_brightness] at h1
  rw [render_pixel_set_brightness]
  by_cases hxy : p.x < 256 ∧ p.scanline < 224
  case neg => rw [if_neg hxy] at h1; exact Option.noConfusion h1
  rw [if_pos hxy] at h1 ⊢
  by_cases hfb : p.forced_blank
  case pos =>
    rw [if_pos hfb] at h1 ⊢
    have hc : c1 = ⟨0, 0, 0⟩ := (Option.some.inj h1).symm
    subst hc
    exact ⟨⟨0, 0, 0⟩, rfl, Nat.le_refl _, Nat.le_refl _, Nat.le_refl _,
      fun _ => rfl⟩
  case neg =>
    rw [if_neg hfb] at h1 ⊢
    cases hpm : post_math_color p with
    | none => rw [hpm] at h1; exact Option.noConfusion h1
    | some pm =>
      rw [hpm] at h1
      simp only [Option.map_some'] at h1 ⊢
      have hc : c1 = to_adjusted_rgb
          (if b1 = 0 then SnesRgb.new 0 0 0
           else
             SnesRgb.new (pm.r.val * (b1 + 1) / 16 % 256)
               (pm.g.val * (b1 + 1) / 16 % 256)
               (pm.b.val * (b1 + 1) / 16 % 256)) := (Option.some.inj h1).symm
      subst hc
      have key : ∀ v : Fin 32,
          v.val * (b1 + 1) / 16 % 256 % 32 ≤ v.val * (b2 + 1) / 16 % 256 % 32 := by
        intro v
        rw [scale5_eq v b1 (by omega), scale5_eq v b2 h15]
        exact Nat.div_le_div_right (Nat.mul_le_mul_left _ (by omega))
      refine ⟨_, rfl, ?_, ?_, ?_, fun hb1 => by
        subst hb1; simp [to_adjusted_rgb, SnesRgb.new]⟩ <;>
        by_cases hb1 : b1 = 0
      · subst hb1
        simp [to_adjusted_rgb, SnesRgb.new]
      · have hb2 : ¬b2 = 0 := by omega
        rw [if_neg hb1, if_neg hb2]
        exact adjusted_channel_mono _ _ (key pm.r)
      · subst hb1
        simp [to_adjusted_rgb, SnesRgb.new]
      · have hb2 : ¬b2 = 0 := by omega
        rw [if_neg hb1, if_neg hb2]
        exact adjusted_channel_mono _ _ (key pm.g)
      · subst hb1
        simp [to_adjusted_rgb, SnesRgb.new]
      · have hb2 : ¬b2 = 0 := by omega
        rw [if_neg hb1, if_neg hb2]
        exact adjusted_channel_mono _ _ (key pm.b)

theorem render_pixel_brightness_monotone_witness :
    ∃ c2 : Rgb, render_pixel { ppu0 with brightness := 15 } = some c2 ∧
      (⟨0, 0, 0⟩ : Rgb).r ≤ c2.r ∧ (⟨0, 0, 0⟩ : Rgb).g ≤ c2.g ∧
      (⟨0, 0, 0⟩ : Rgb).b ≤ c2.b ∧ ((0 : Nat) = 0 → (⟨0, 0, 0⟩ : Rgb) = ⟨0, 0, 0⟩) :=
  render_pixel_brightness_monotone ppu0 0 15 ⟨0, 0, 0⟩ (by decide) (by decide)
    (by decide)

/-- Reads through two VRAM contents that agree away from one address
agree when the read address differs from it. -/
theorem read8_congr {v v' : Nat → Nat} {A : Nat}
    (h : ∀ a, a < 65536 → a ≠ A → v' a = v a) {a : Nat}
    (ha : a % 65536 ≠ A) : read8 v' a = read8 v a := by
  unfold read8
  rw [h (a % 65536) (Nat.mod_lt _ (by omega)) ha]

/-- Masking with a constant below 64 only sees the low 6 bits. -/
theorem mod64_and {x y : Nat} (hxy : x % 64 = y % 64) {m : Nat} (hm : m < 64) :
    x &&& m = y &&& m := by
  apply Nat.eq_of_testBit_eq
  intro i
  rw [Nat.testBit_and, Nat.testBit_and]
  by_cases hi : i < 6
  · have h1 := congrArg (fun t => Nat.testBit t i) hxy
    simp only [show (64 : Nat) = 2 ^ 6 from rfl, Nat.testBit_mod_two_pow] at h1
    simp only [hi, decide_True, Bool.true_and] at h1
    rw [h1]
  · have h64 : (64 : Nat) ≤ 2 ^ i := by
      have h2 := Nat.pow_le_pow_right (show 0 < 2 by omega) (show 6 ≤ i by omega)
      simpa using h2
    have hmf : m.testBit i = false :=
      Nat.testBit_lt_two_pow (lt_of_lt_of_le hm h64)
    rw [hmf, Bool.and_false, Bool.and_false]

/-- Changing only bits 7 and 6 (the vflip/hflip bits) of a tilemap
entry's high byte leaves the decoded priority, palette and tile number
unchanged. -/
theorem tilemap_entry_fields_congr (p : Ppu) (v' : Nat → Nat) (W : Nat)
    (hagree : ∀ a, a < 65536 → a ≠ (W <<< 1 + 1) % 65536 → v' a = p.vram a)
    (hbits : v' ((W <<< 1 + 1) % 65536) % 64 =
      p.vram ((W <<< 1 + 1) % 65536) % 64) :
    (tilemap_entry { p with vram := v' } W).priority =
      (tilemap_entry p W).priority ∧
    (tilemap_entry { p with vram := v' } W).palette =
      (tilemap_entry p W).palette ∧
    (tilemap_entry { p with vram := v' } W).tile_number =
      (tilemap_entry p W).tile_number := by
  have hlo : read8 v' (W <<< 1) = read8 p.vram (W <<< 1) := by
    apply read8_congr hagree
    generalize W <<< 1 = t
    omega
  have h64 : read8 v' (W <<< 1 + 1) % 64 = read8 p.vram (W <<< 1 + 1) % 64 := by
    unfold read8
    rw [Nat.mod_mod_of_dvd _ (by norm_num), Nat.mod_mod_of_dvd _ (by norm_num),
      hbits]
  refine ⟨?_, ?_, ?_⟩
  · show (read8 v' (W <<< 1 + 1) &&& 0x20) >>> 5 = _
    rw [mod64_and h64 (by norm_num)]
    rfl
  · show (read8 v' (W <<< 1 + 1) &&& 0x1c) >>> 2 = _
    rw [mod64_and h64 (by norm_num)]
    rfl
  · show ((read8 v' (W <<< 1 + 1) &&& 0x03) <<< 8) ||| read8 v' (W <<< 1) = _
    rw [mod64_and h64 (by norm_num), hlo]
    rfl

/-- C10 (amended): `lookup_bg_color` is independent of the vflip/hflip
bits of the addressed tilemap entry: for two VRAM contents that differ
only in bits 7 and 6 of the addressed entry's high byte, and identical
registers and pixel position, the lookup returns the same value —
provided the changed byte is not also read as character data for the
pixel (no aliasing between the tilemap entry and the character fetch).
The decoded flip flags themselves are never passed to the
character-data read. -/
theorem lookup_bg_color_flip_bits_independent (p : Ppu) (v' : Nat → Nat)
    (bg prio : Nat) (sub : Bool) (s : BgSettings) (cc : Nat)
    (hs : bg_settings p bg = some s)
    (hcc : color_count_for_bg p bg = some cc)
    (hagree : ∀ a, a < 65536 → a ≠ bg_entry_hi_addr p s → v' a = p.vram a)
    (hbits : v' (bg_entry_hi_addr p s) % 64 = p.vram (bg_entry_hi_addr p s) % 64)
    (hnoalias : ∀ i, i < bg_bitplane_count cc >>> 1 →
      (bg_chr_start s (bg_tilemap_entry p s) (bg_bitplane_count cc) + i * 16 +
          (bg_scrolled_y p s % s.tile_size) * 2) % 65536 ≠ bg_entry_hi_addr p s ∧
      (bg_chr_start s (bg_tilemap_entry p s) (bg_bitplane_count cc) + i * 16 +
          (bg_scrolled_y p s % s.tile_size) * 2 + 1) % 65536 ≠ bg_entry_hi_addr p s) :
    lookup_bg_color { p with vram := v' } bg prio sub =
      lookup_bg_color p bg prio sub := by
  have heq : bg_entry_hi_addr p s = (bg_entry_word_addr p s <<< 1 + 1) % 65536 := by
    unfold bg_entry_hi_addr bg_entry_byte_addr
    generalize bg_entry_word_addr p s <<< 1 = t
    omega
  have hfields := tilemap_entry_fields_congr p v' (bg_entry_word_addr p s)
    (fun a ha hne => hagree a ha (by rw [heq]; exact hne))
    (by rw [← heq]; exact hbits)
  have hprio : (bg_tilemap_entry { p with vram := v' } s).priority =
      (bg_tilemap_entry p s).priority := hfields.1
  have hpal : (bg_tilemap_entry { p with vram := v' } s).palette =
      (bg_tilemap_entry p s).palette := hfields.2.1
  have htile : (bg_tilemap_entry { p with vram := v' } s).tile_number =
      (bg_tilemap_entry p s).tile_number := hfields.2.2
  have hstart : bg_chr_start s (bg_tilemap_entry { p with vram := v' } s)
      (bg_bitplane_count cc) =
      bg_chr_start s (bg_tilemap_entry p s) (bg_bitplane_count cc) := by
    unfold bg_chr_start
    rw [htile]
  have hpi : bg_palette_index { p with vram := v' } s
      (bg_tilemap_entry { p with vram := v' } s) cc =
      bg_palette_index p s (bg_tilemap_entry p s) cc := by
    unfold bg_palette_index read_chr_entry
    rw [show bg_scrolled_x { p with vram := v' } s = bg_scrolled_x p s from rfl,
      show bg_scrolled_y { p with vram := v' } s = bg_scrolled_y p s from rfl,
      hstart]
    simp only [Bool.false_eq_true, if_false]
    apply List.foldl_ext
    intro a b hb
    rw [List.mem_range] at hb
    obtain ⟨h1, h2⟩ := hnoalias b hb
    have hr : read_2_bitplanes { p with vram := v' }
        (bg_chr_start s (bg_tilemap_entry p s) (bg_bitplane_count cc) + b * 16)
        (bg_scrolled_x p s % s.tile_size) (bg_scrolled_y p s % s.tile_size) =
        read_2_bitplanes p
        (bg_chr_start s (bg_tilemap_entry p s) (bg_bitplane_count cc) + b * 16)
        (bg_scrolled_x p s % s.tile_size) (bg_scrolled_y p s % s.tile_size) := by
      unfold read_2_bitplanes
      rw [show ({ p with vram := v' } : Ppu).vram = v' from rfl,
        read8_congr hagree h1, read8_congr hagree h2]
    rw [hr]
  unfold lookup_bg_color
  simp only [show bg_enabled { p with vram := v' } bg sub = bg_enabled p bg sub
      from rfl,
    show bg_settings { p with vram := v' } bg = bg_settings p bg from rfl, hs,
    show color_count_for_bg { p with vram := v' } bg = color_count_for_bg p bg
      from rfl,
    hcc, hprio, hpal,
    show palette_base_for_bg_tile { p with vram := v' } bg
        (bg_tilemap_entry p s).palette =
      palette_base_for_bg_tile p bg (bg_tilemap_entry p s).palette from rfl,
    hpi,
    show ∀ i, lookup_color { p with vram := v' } i = lookup_color p i from
      fun i => rfl]

/-- C10 counterexample: with all bases zero, VRAM byte 1 is both the
addressed tilemap entry's high byte and the high character byte of the
addressed pixel, so setting only its bit 7 (the entry's vflip bit)
changes the lookup result from transparent to a color. -/
theorem lookup_bg_color_flip_bits_counterexample :
    lookup_bg_color ppuC10b 1 0 false ≠ lookup_bg_color ppuC10a 1 0 false ∧
    ppuC10b.vram 1 % 64 = ppuC10a.vram 1 % 64 ∧
    bg_entry_hi_addr ppuC10a (bg_settings_from ppuC10a 1 0 0 0 0) = 1 := by
  decide

theorem lookup_bg_color_flip_bits_independent_witness :
    lookup_bg_color { ppuC10w with vram := vC10 } 1 0 false =
      lookup_bg_color ppuC10w 1 0 false :=
  lookup_bg_color_flip_bits_independent ppuC10w vC10 1 0 false
    (bg_settings_from ppuC10w 1 0 1 0 0) 4 (by decide) (by decide)
    (fun a ha hne => by
      show (if a = 1 then 64 else 0) = 0
      rw [if_neg (by simpa using hne)])
    (by decide) (by decide)
